import Mathlib

/-! The component create command (cmd/create.go), followed by the error and
output helpers (pkg/machineoutput/types.go, pkg/odo/util/cmdutils.go) and the
source path of the local configuration (pkg/odo/cli/utils/utils.go).  The
definitions of all parts come first, their theorems after.

A shallow embedding of `componentCreateCmd.Run`.  The command talks to three
kinds of collaborators whose code lives outside the file: the cluster
gateway (`application`, `project`, `catalog`, `component` packages), the name
validator (`validateName`) and the filesystem (`filepath.Abs`, `os.Stat`).
Their answers are the fields of an environment `Env`; the command is a pure
function from an environment, the positional arguments and the three source
flags to the list of calls it made, in order, together with the way it ended.
-/

namespace Create

/-- A Go `(value, error)` result: the value with a nil error, or a non-nil
error carrying its text. -/
inductive Res (α : Type) where
  | ok (val : α)
  | err (msg : String)
  deriving DecidableEq, Repr

/-- The package-level flag variables bound by `init()`:
`--binary`, `--git` and `--local`, each defaulting to the empty string. -/
structure Flags where
  componentBinary : String
  componentGit : String
  componentLocal : String
  deriving DecidableEq, Repr

/-- One call made by `Run` to a collaborator, with the arguments it was given
(the client handle is left out).  `Build` keeps its two booleans in source
order; the gateway interface names them `wait` and `showProgress`. -/
inductive Call where
  | GetCurrentOrGetCreateSetDefault
  | ProjectGetCurrent
  | CatalogExists (componentType : String)
  | ValidateName (componentName : String)
  | ComponentExists (componentName applicationName projectName : String)
  | FilepathAbs (path : String)
  | OsStat (path : String)
  | CreateFromGit (componentName componentType url applicationName : String)
  | CreateFromPath (componentName componentType path applicationName kind : String)
  | Build (componentName : String) (wait showProgress : Bool)
  | SetCurrent (componentName applicationName projectName : String)
  deriving DecidableEq, Repr

/-- The reasons for which `Run` terminates the process.
* `conflictingSource`: lines 69-72, more than one source flag;
* `unknownType`: lines 79-82, the catalog does not know the type;
* `duplicateName`: lines 93-96, the component already exists;
* `notADirectory`: lines 113-116, the local source is not a directory;
* `checkError c msg`: the call `c` returned the error `msg`, which was handed
  to `checkError`. -/
inductive Failure where
  | conflictingSource
  | unknownType (componentType : String)
  | duplicateName (componentName : String)
  | notADirectory
  | checkError (c : Call) (msg : String)
  deriving DecidableEq, Repr

/-- How a run of the command ends: `returned` when `Run` reaches its last line,
`exited code why` for `os.Exit(code)`, `panicked` for an index out of range on
`args[0]` (excluded by `cobra.RangeArgs(1, 2)`). -/
inductive Outcome where
  | returned
  | exited (code : Nat) (why : Failure)
  | panicked
  deriving DecidableEq, Repr

/-- The answers of the collaborators.  An `Option String` is a Go `error`
(`none` is nil); `osStat` answers with `FileInfo.IsDir()`.  An answer depends only
on the arguments of the call: `Run` makes each kind of call at most once, so no
generality is lost.  `validateName` is defined outside the source files at hand
and its rule set is left open: it is a field like the others. -/
structure Env where
  getCurrentOrGetCreateSetDefault : Res String
  projectGetCurrent : String
  catalogExists : String → Res Bool
  validateName : String → Option String
  componentExists : String → String → String → Res Bool
  filepathAbs : String → Res String
  osStat : String → Res Bool
  createFromGit : String → String → String → String → Option String
  createFromPath : String → String → String → String → String → Option String
  build : String → Bool → Bool → Option String
  setCurrent : String → String → String → Option String

/-- The `Args: cobra.RangeArgs(1, 2)` constraint of the command. -/
def RangeArgs (lo hi : Nat) (args : List String) : Bool :=
  decide (lo ≤ args.length) && decide (args.length ≤ hi)

/-- Lines 57-67: the number of non-empty source flags. -/
def checkFlag (f : Flags) : Nat :=
  (if f.componentBinary.length ≠ 0 then 1 else 0)
    + (if f.componentGit.length ≠ 0 then 1 else 0)
    + (if f.componentLocal.length ≠ 0 then 1 else 0)

/-- Lines 84-87: the component name is `args[0]` unless `len(args) == 2`,
in which case it is `args[1]`. -/
def componentNameOf (args : List String) : String :=
  if args.length = 2 then args.getD 1 "" else args.getD 0 ""

/-- Modelled from the spec: `checkError` is defined outside the source files at
hand; every error handed to it is terminal and ends the process with status 1. -/
def checkErrorExit (t : List Call) (c : Call) (msg : String) : List Call × Outcome :=
  (t, Outcome.exited 1 (Failure.checkError c msg))

/-- Lines 144-147: set the component as active, then return. -/
def setCurrentStep (env : Env) (t : List Call)
    (componentName applicationName projectName : String) : List Call × Outcome :=
  let c := Call.SetCurrent componentName applicationName projectName
  match env.setCurrent componentName applicationName projectName with
  | some e => checkErrorExit (t ++ [c]) c e
  | none => (t ++ [c], Outcome.returned)

/-- The call `component.Build(client, componentName, b1, b2)` followed by
`checkError`, and then the tail of `Run` (lines 144-147). -/
def buildStep (env : Env) (t : List Call) (componentName : String) (b1 b2 : Bool)
    (applicationName projectName : String) : List Call × Outcome :=
  let c := Call.Build componentName b1 b2
  match env.build componentName b1 b2 with
  | some e => checkErrorExit (t ++ [c]) c e
  | none => setCurrentStep env (t ++ [c]) componentName applicationName projectName

/-- The call `component.CreateFromPath(client, componentName, componentType, path,
applicationName, kind)` followed by `checkError`, then
`component.Build(client, componentName, false, true)` and the tail of `Run`. -/
def createFromPathStep (env : Env) (t : List Call)
    (componentName componentType path applicationName kind projectName : String) :
    List Call × Outcome :=
  let c := Call.CreateFromPath componentName componentType path applicationName kind
  match env.createFromPath componentName componentType path applicationName kind with
  | some e => checkErrorExit (t ++ [c]) c e
  | none => buildStep env (t ++ [c]) componentName false true applicationName projectName

/-- Lines 100-147: the four provisioning paths, selected by the source flags in
the order git, local, binary, none. -/
def provision (env : Env) (t : List Call) (f : Flags)
    (componentName componentType applicationName projectName : String) :
    List Call × Outcome :=
  if f.componentGit.length ≠ 0 then
    let c := Call.CreateFromGit componentName componentType f.componentGit applicationName
    match env.createFromGit componentName componentType f.componentGit applicationName with
    | some e => checkErrorExit (t ++ [c]) c e
    | none => buildStep env (t ++ [c]) componentName true true applicationName projectName
  else if f.componentLocal.length ≠ 0 then
    let a := Call.FilepathAbs f.componentLocal
    match env.filepathAbs f.componentLocal with
    | Res.err e => checkErrorExit (t ++ [a]) a e
    | Res.ok dir =>
      let s := Call.OsStat dir
      match env.osStat dir with
      | Res.err e => checkErrorExit (t ++ [a, s]) s e
      | Res.ok isDir =>
        if !isDir then (t ++ [a, s], Outcome.exited 1 Failure.notADirectory)
        else createFromPathStep env (t ++ [a, s]) componentName componentType dir
          applicationName "local" projectName
  else if f.componentBinary.length ≠ 0 then
    let a := Call.FilepathAbs f.componentBinary
    match env.filepathAbs f.componentBinary with
    | Res.err e => checkErrorExit (t ++ [a]) a e
    | Res.ok path =>
      createFromPathStep env (t ++ [a]) componentName componentType path
        applicationName "binary" projectName
  else
    let a := Call.FilepathAbs "./"
    match env.filepathAbs "./" with
    | Res.err e => checkErrorExit (t ++ [a]) a e
    | Res.ok dir =>
      createFromPathStep env (t ++ [a]) componentName componentType dir
        applicationName "local" projectName

/-- Lines 49-148: the body of `componentCreateCmd.Run`.  The result is the list of
calls made, in order, and the way the run ended.  `getOcClient()` only hands out
the client and the `fmt.Printf` progress messages do not influence the control
flow: neither is recorded. -/
def Run (env : Env) (args : List String) (f : Flags) : List Call × Outcome :=
  let t0 := [Call.GetCurrentOrGetCreateSetDefault]
  match env.getCurrentOrGetCreateSetDefault with
  | Res.err e => checkErrorExit t0 Call.GetCurrentOrGetCreateSetDefault e
  | Res.ok applicationName =>
    let projectName := env.projectGetCurrent
    let t1 := t0 ++ [Call.ProjectGetCurrent]
    if checkFlag f > 1 then (t1, Outcome.exited 1 Failure.conflictingSource)
    else
      match args with
      | [] => (t1, Outcome.panicked)
      | componentType :: _ =>
        let t2 := t1 ++ [Call.CatalogExists componentType]
        match env.catalogExists componentType with
        | Res.err e => checkErrorExit t2 (Call.CatalogExists componentType) e
        | Res.ok false => (t2, Outcome.exited 1 (Failure.unknownType componentType))
        | Res.ok true =>
          let componentName := componentNameOf args
          let t3 := t2 ++ [Call.ValidateName componentName]
          match env.validateName componentName with
          | some e => checkErrorExit t3 (Call.ValidateName componentName) e
          | none =>
            let x := Call.ComponentExists componentName applicationName projectName
            let t4 := t3 ++ [x]
            match env.componentExists componentName applicationName projectName with
            | Res.err e => checkErrorExit t4 x e
            | Res.ok true => (t4, Outcome.exited 1 (Failure.duplicateName componentName))
            | Res.ok false =>
              provision env t4 f componentName componentType applicationName projectName

/-- The exit status of the process: 0 when `Run` returns, the argument of
`os.Exit` otherwise, 2 for a Go run-time panic. -/
def exitStatus : Outcome → Nat
  | Outcome.returned => 0
  | Outcome.exited code _ => code
  | Outcome.panicked => 2

/-- The calls that go to the cluster through the client handle. -/
def Call.isCluster : Call → Bool
  | Call.ValidateName _ => false
  | Call.FilepathAbs _ => false
  | Call.OsStat _ => false
  | _ => true

/-- The calls that touch the local filesystem. -/
def Call.isFilesystem : Call → Bool
  | Call.FilepathAbs _ => true
  | Call.OsStat _ => true
  | _ => false

/-- The two creation calls. -/
def Call.isCreation : Call → Bool
  | Call.CreateFromGit _ _ _ _ => true
  | Call.CreateFromPath _ _ _ _ _ => true
  | _ => false

/-- The build call. -/
def Call.isBuild : Call → Bool
  | Call.Build _ _ _ => true
  | _ => false

/-- The set-current call. -/
def Call.isSetCurrent : Call → Bool
  | Call.SetCurrent _ _ _ => true
  | _ => false

/-- The gateway calls that change the cluster or the active selection, as opposed
to the lookups: creation, build and set-current. -/
def Call.isEffect (c : Call) : Bool :=
  c.isCreation || c.isBuild || c.isSetCurrent

/-- The component name a call was given, for the calls that take one. -/
def Call.nameArg : Call → Option String
  | Call.ValidateName n => some n
  | Call.ComponentExists n _ _ => some n
  | Call.CreateFromGit n _ _ _ => some n
  | Call.CreateFromPath n _ _ _ _ => some n
  | Call.Build n _ _ => some n
  | Call.SetCurrent n _ _ => some n
  | _ => none

/-- The position of a call in the text of `Run`: application lookup 0, project
lookup 1, (flag check 2,) catalog query 3, name validation 4, existence query 5,
path resolution 6, stat 7, creation 8, build 9, set-current 10. -/
def Call.step : Call → Nat
  | Call.GetCurrentOrGetCreateSetDefault => 0
  | Call.ProjectGetCurrent => 1
  | Call.CatalogExists _ => 3
  | Call.ValidateName _ => 4
  | Call.ComponentExists _ _ _ => 5
  | Call.FilepathAbs _ => 6
  | Call.OsStat _ => 7
  | Call.CreateFromGit _ _ _ _ => 8
  | Call.CreateFromPath _ _ _ _ _ => 8
  | Call.Build _ _ _ => 9
  | Call.SetCurrent _ _ _ => 10

/-- The position in the text of `Run` at which a failure ends the process. -/
def Failure.step : Failure → Nat
  | Failure.conflictingSource => 2
  | Failure.unknownType _ => 3
  | Failure.duplicateName _ => 5
  | Failure.notADirectory => 7
  | Failure.checkError c _ => c.step

/-- Whether the environment answers a call with a nil error. -/
def Env.succeeds (env : Env) : Call → Bool
  | Call.GetCurrentOrGetCreateSetDefault =>
    match env.getCurrentOrGetCreateSetDefault with
    | Res.ok _ => true
    | Res.err _ => false
  | Call.ProjectGetCurrent => true
  | Call.CatalogExists ty =>
    match env.catalogExists ty with
    | Res.ok _ => true
    | Res.err _ => false
  | Call.ValidateName n => (env.validateName n).isNone
  | Call.ComponentExists n a p =>
    match env.componentExists n a p with
    | Res.ok _ => true
    | Res.err _ => false
  | Call.FilepathAbs p =>
    match env.filepathAbs p with
    | Res.ok _ => true
    | Res.err _ => false
  | Call.OsStat p =>
    match env.osStat p with
    | Res.ok _ => true
    | Res.err _ => false
  | Call.CreateFromGit n ty u a => (env.createFromGit n ty u a).isNone
  | Call.CreateFromPath n ty p a k => (env.createFromPath n ty p a k).isNone
  | Call.Build n w s => (env.build n w s).isNone
  | Call.SetCurrent n a p => (env.setCurrent n a p).isNone

/-- The source kind selected by the flags, in the order in which lines 100-133
test them: git, then local, then binary, then the current directory. -/
inductive SourceKind where
  | git
  | localDir
  | binaryFile
  | currentDir
  deriving DecidableEq, Repr

/-- The branch of the dispatch at lines 100-133 taken for the given flags. -/
def sourceKind (f : Flags) : SourceKind :=
  if f.componentGit.length ≠ 0 then SourceKind.git
  else if f.componentLocal.length ≠ 0 then SourceKind.localDir
  else if f.componentBinary.length ≠ 0 then SourceKind.binaryFile
  else SourceKind.currentDir

/-- The checks of lines 52-96 all pass: one or two arguments, at most one source
flag, the application lookup answers `applicationName`, the catalog knows the
type, the name is valid and no component of that name exists in the scope. -/
structure PassesChecks (env : Env) (args : List String) (f : Flags)
    (applicationName : String) : Prop where
  rangeArgs : RangeArgs 1 2 args = true
  oneSource : checkFlag f ≤ 1
  application : env.getCurrentOrGetCreateSetDefault = Res.ok applicationName
  typeKnown : env.catalogExists (args.getD 0 "") = Res.ok true
  nameValid : env.validateName (componentNameOf args) = none
  nameFree : env.componentExists (componentNameOf args) applicationName
    env.projectGetCurrent = Res.ok false

/-- The calls made by lines 52-96 when every check passes. -/
def checkCalls (env : Env) (args : List String) (applicationName : String) : List Call :=
  [Call.GetCurrentOrGetCreateSetDefault, Call.ProjectGetCurrent,
    Call.CatalogExists (args.getD 0 ""), Call.ValidateName (componentNameOf args),
    Call.ComponentExists (componentNameOf args) applicationName env.projectGetCurrent]

/-- A sample environment: application `app`, project `myproject`, a catalog that
holds only `nodejs`, no component yet, working directory `/home/u/app` in which
`frontend` and `downloads/sample.war` are regular files and `backend` is a directory, a name validator that rejects the empty name and
`Front_End`, and every gateway call succeeding. -/
def sampleEnv : Env where
  getCurrentOrGetCreateSetDefault := Res.ok "app"
  projectGetCurrent := "myproject"
  catalogExists := fun ty => Res.ok (ty == "nodejs")
  validateName := fun n =>
    if n = "" ∨ n = "Front_End" then some "name must be lower case alphanumeric" else none
  componentExists := fun _ _ _ => Res.ok false
  filepathAbs := fun p =>
    if p = "./" then Res.ok "/home/u/app"
    else if p = "./frontend" then Res.ok "/home/u/app/frontend"
    else if p = "./backend" then Res.ok "/home/u/app/backend"
    else if p = "./downloads/sample.war" then Res.ok "/home/u/app/downloads/sample.war"
    else Res.ok p
  osStat := fun p =>
    if p = "/home/u/app/frontend" then Res.ok false
    else if p = "/home/u/app/downloads/sample.war" then Res.ok false
    else Res.ok true
  createFromGit := fun _ _ _ _ => none
  createFromPath := fun _ _ _ _ _ => none
  build := fun _ _ _ => none
  setCurrent := fun _ _ _ => none

/-- The sample environment with the application lookup failing. -/
def loggedOutEnv : Env :=
  { sampleEnv with getCurrentOrGetCreateSetDefault := Res.err "not logged in" }

/-- The sample environment in which the component `nodejs` already exists in the
scope (`app`, `myproject`). -/
def existingEnv : Env :=
  { sampleEnv with
    componentExists := fun n a p =>
      Res.ok (decide (n = "nodejs" ∧ a = "app" ∧ p = "myproject")) }

/-- No source flag given. -/
def noFlags : Flags := ⟨"", "", ""⟩

/-- Only `--git` given. -/
def gitFlags : Flags := ⟨"", "https://github.com/openshift/nodejs-ex.git", ""⟩

/-- Only `--local` given. -/
def localFlags : Flags := ⟨"", "", "./frontend"⟩

/-- Only `--local` given, naming a directory. -/
def localDirFlags : Flags := ⟨"", "", "./backend"⟩

/-- Only `--binary` given. -/
def binaryFlags : Flags := ⟨"./downloads/sample.war", "", ""⟩

/-- Both `--binary` and `--git` given. -/
def conflictingFlags : Flags :=
  ⟨"./downloads/sample.war", "https://github.com/openshift/nodejs-ex.git", ""⟩

end Create

/-! Machine-readable output (pkg/machineoutput/types.go). -/

namespace Machineoutput

/-- Line 12: the kind used in the machine readable output. -/
def Kind : String := "Error"

/-- Line 15: the API version in use. -/
def APIVersion : String := "odo.openshift.io/v1alpha1"

/-- The inlined `metav1.TypeMeta` of the output structs. -/
structure TypeMeta where
  Kind : String
  APIVersion : String
  deriving DecidableEq, Repr

/-- The `metav1.ObjectMeta` of the output structs.  Its declaration belongs to the
Kubernetes library; only its zero value occurs here, so one field stands for
all of them. -/
structure ObjectMeta where
  Name : String
  deriving DecidableEq, Repr

/-- The zero value of `metav1.ObjectMeta`, which a struct literal that does not
mention the field leaves in place. -/
def ObjectMeta.zero : ObjectMeta := ⟨""⟩

/-- Lines 18-22: the error struct for machine readable output.  The struct literal
in `LogErrorAndExit` calls it `GenericError`; this is the declaration at hand and
the parameter type of `OutputError`. -/
structure Error where
  typeMeta : TypeMeta
  objectMeta : ObjectMeta
  Message : String
  deriving DecidableEq, Repr

/-- Lines 26-30: the success struct, with the same fields. -/
structure Success where
  typeMeta : TypeMeta
  objectMeta : ObjectMeta
  Message : String
  deriving DecidableEq, Repr

/-- One thing written by the output and logging functions:
* `stdout text`, `stderr text`: `fmt.Fprintf` to `log.GetStdout()`, `log.GetStderr()`;
* `glogV4Infof text`: `glog.V(4).Infof`;
* `logError text`: `log.Error`, the prose error message;
* `logErrorf format a`: `log.Errorf(format, a...)`, the prose message with a context;
* `describef title format`: `log.Describef(title, format)`. -/
inductive Emit where
  | stdout (text : String)
  | stderr (text : String)
  | glogV4Infof (text : String)
  | logError (text : String)
  | logErrorf (format : String) (a : List String)
  | describef (title format : String)
  deriving DecidableEq, Repr

/-- Lines 33-42: `OutputSuccess`, given the answer of `json.Marshal`. -/
def OutputSuccess (jsonMarshal : Success → Create.Res String) (machineOutput : Success) :
    List Emit :=
  match jsonMarshal machineOutput with
  | Create.Res.err e => [Emit.stderr ("Unable to unmarshal JSON: " ++ e ++ "\n")]
  | Create.Res.ok printableOutput => [Emit.stdout (printableOutput ++ "\n")]

/-- Lines 45-54: `OutputError`, given the answer of `json.Marshal`. -/
def OutputError (jsonMarshal : Error → Create.Res String) (machineOutput : Error) :
    List Emit :=
  match jsonMarshal machineOutput with
  | Create.Res.err e => [Emit.stderr ("Unable to unmarshal JSON: " ++ e ++ "\n")]
  | Create.Res.ok printableOutput => [Emit.stderr (printableOutput ++ "\n")]

end Machineoutput

/-! Command helpers (pkg/odo/util/cmdutils.go). -/

namespace Util

open Machineoutput (Emit)

/-- A non-nil Go `error`: the text of `err.Error()` and the text of
`errors.Cause(err)`. -/
structure GoError where
  text : String
  cause : String
  deriving DecidableEq, Repr

/-- How a call ends: it returns, the process exits through `os.Exit(code)`, or a
run-time panic (slice bounds out of range) stops the program. -/
inductive Ending where
  | returned
  | exited (code : Nat)
  | panicked
  deriving DecidableEq, Repr

/-- What `LogErrorAndExit` reads from outside: `log.IsJSON()`, the answer of
`json.Marshal` and `strings.Title`. -/
structure LogEnv where
  isJSON : Bool
  jsonMarshal : Machineoutput.Error → Create.Res String
  title : String → String

/-- Lines 28-60: `LogErrorAndExit(err, context, a...)`.  The result is what was
written, in order, and how the call ended. -/
def LogErrorAndExit (env : LogEnv) (err : Option GoError) (context : String)
    (a : List String) : List Emit × Ending :=
  match err with
  | none => ([], Ending.returned)
  | some e =>
    if env.isJSON then
      let machineOutput : Machineoutput.Error :=
        { typeMeta := { Kind := Machineoutput.Kind, APIVersion := Machineoutput.APIVersion },
          objectMeta := Machineoutput.ObjectMeta.zero,
          Message := e.text }
      (Machineoutput.OutputError env.jsonMarshal machineOutput, Ending.exited 1)
    else
      let g := Emit.glogV4Infof ("Error:\n" ++ e.text)
      if context = "" then ([g, Emit.logError e.cause], Ending.exited 1)
      else ([g, Emit.logErrorf (env.title context) a], Ending.exited 1)

/-- Lines 63-71: `CheckOutputFlag` validates the `-o` flag. -/
def CheckOutputFlag (outputFlag : String) : Option String :=
  match outputFlag with
  | "" => none
  | "json" => none
  | _ => some "Please input valid output format. available format: json"

/-- The exit status of the process after a call: 0 when it returns (and the
program runs to its end), the argument of `os.Exit`, 2 for a run-time panic. -/
def Ending.status : Ending → Nat
  | Ending.returned => 0
  | Ending.exited code => code
  | Ending.panicked => 2

/-- A sample `json.Marshal` for the error struct, without string escaping. -/
def sampleMarshal (e : Machineoutput.Error) : Create.Res String :=
  Create.Res.ok ("\x7b\"kind\":\"" ++ e.typeMeta.Kind ++ "\",\"apiVersion\":\""
    ++ e.typeMeta.APIVersion ++ "\",\"metadata\":\x7b\"creationTimestamp\":null\x7d,"
    ++ "\"message\":\"" ++ e.Message ++ "\"\x7d")

/-- Machine-readable mode switched on. -/
def jsonEnv : LogEnv := ⟨true, sampleMarshal, fun s => s.capitalize⟩

/-- Machine-readable mode switched off. -/
def proseEnv : LogEnv := ⟨false, sampleMarshal, fun s => s.capitalize⟩

/-- A sample error: a wrapped connection failure. -/
def sampleError : GoError := ⟨"unable to list: connection refused", "connection refused"⟩

/-- An environment variable of a component (`corev1.EnvVar`, name and value). -/
structure EnvVar where
  Name : String
  Value : String
  deriving DecidableEq, Repr

/-- A storage entry of the local configuration, as listed by `StorageList()`. -/
structure ComponentStorageSettings where
  Name : String
  Size : String
  Path : String
  deriving DecidableEq, Repr

/-- The `Spec` of a pushed URL, as far as line 131 reads it. -/
structure URLSpec where
  Protocol : String
  Host : String
  Port : Int
  deriving DecidableEq, Repr

/-- The `Spec` of a component description.  A slice that the code compares with
`nil` is an `Option (List _)`, `none` being the nil slice; `componentType` is the
field `Type`. -/
structure ComponentSpec where
  componentType : String
  Source : String
  Env : Option (List EnvVar)
  Storage : List String
  URL : Option (List String)
  deriving DecidableEq, Repr

/-- The `Status` of a component description; the map of linked components is
the list of its entries in the order of the iteration. -/
structure ComponentStatus where
  LinkedComponents : List (String × List String)
  LinkedServices : List String
  deriving DecidableEq, Repr

/-- A component description (`component.Component`). -/
structure Component where
  Spec : ComponentSpec
  Status : ComponentStatus
  deriving DecidableEq, Repr

/-- What `PrintComponentInfo` reads from outside: the logging environment, the
error of `config.New()` (`none` is nil), the answer of `localConfig.StorageList()`,
the answer of `urlPkg.ListPushed(client, name, application)` as the lookup
`urls.Get`, and `urlPkg.GetURLString`. -/
structure PrintEnv where
  log : LogEnv
  configNew : Option GoError
  storageList : Except GoError (List ComponentStorageSettings)
  listPushed : String → String → Except GoError (String → URLSpec)
  getURLString : String → String → String

/-- The slice expression `output[:len(output)-1]`: out of range, hence `none`, for
the empty string; otherwise the string without its last byte, which at every use
is the newline that ends the last line. -/
def cutLast (output : String) : Option String :=
  if output.length = 0 then none else some (output.dropRight 1)

/-- The two statements "cut off the last newline and output": the slice, then
`log.Describef(title, output)`. -/
def describeCut (title output : String) : List Emit × Ending :=
  match cutLast output with
  | none => ([], Ending.panicked)
  | some cut => ([Emit.describef title cut], Ending.returned)

/-- Sequencing of two statements: the second runs only when the first returns. -/
def andThen (r k : List Emit × Ending) : List Emit × Ending :=
  match r.2 with
  | Ending.returned => (r.1 ++ k.1, k.2)
  | _ => r

/-- Lines 89-100: the environment variables. -/
def envSection (spec : ComponentSpec) : List Emit × Ending :=
  match spec.Env with
  | none => ([], Ending.returned)
  | some envs =>
    describeCut "Environment Variables:\n"
      (envs.foldl (fun output env => output ++ (" · " ++ env.Name ++ "=" ++ env.Value ++ "\n")) "")

/-- Lines 103-118: the storage. -/
def storageSection (env : PrintEnv) (spec : ComponentSpec) : List Emit × Ending :=
  if spec.Storage.length > 0 then
    match env.storageList with
    | Except.error e => LogErrorAndExit env.log (some e) "" []
    | Except.ok storages =>
      describeCut "Storage:\n"
        (storages.foldl (fun output store => output ++
          (" · " ++ store.Name ++ " of size " ++ store.Size ++ " mounted to " ++ store.Path
            ++ "\n")) "")
  else ([], Ending.returned)

/-- Lines 121-138: the URLs. -/
def urlSection (env : PrintEnv) (currentComponentName applicationName : String)
    (spec : ComponentSpec) : List Emit × Ending :=
  match spec.URL with
  | none => ([], Ending.returned)
  | some componentURLs =>
    match env.listPushed currentComponentName applicationName with
    | Except.error e => LogErrorAndExit env.log (some e) "" []
    | Except.ok urls =>
      describeCut "URLs:\n"
        (componentURLs.foldl (fun output componentURL => output ++
          (" · " ++ env.getURLString (urls componentURL).Protocol (urls componentURL).Host
            ++ " exposed via " ++ toString (urls componentURL).Port ++ "\n")) "")

/-- Lines 141-157: the linked components. -/
def linkedComponentsSection (status : ComponentStatus) : List Emit × Ending :=
  if status.LinkedComponents.length > 0 then
    describeCut "Linked Components:\n"
      (status.LinkedComponents.foldl (fun output entry =>
        if entry.2.length > 0 then
          output ++ (" · " ++ entry.1 ++ " - Port(s): " ++ ",".intercalate entry.2 ++ "\n")
        else output ++ (" · " ++ entry.1 ++ "\n")) "")
  else ([], Ending.returned)

/-- Lines 160-172: the linked services. -/
def linkedServicesSection (status : ComponentStatus) : List Emit × Ending :=
  if status.LinkedServices.length > 0 then
    describeCut "Linked Services:\n"
      (status.LinkedServices.foldl (fun output linkedService =>
        output ++ (" · " ++ linkedService ++ "\n")) "")
  else ([], Ending.returned)

/-- Lines 74-174: `PrintComponentInfo`.  The result is what was written, in
order, and how the call ended. -/
def PrintComponentInfo (env : PrintEnv) (currentComponentName : String)
    (componentDesc : Component) (applicationName : String) : List Emit × Ending :=
  match env.configNew with
  | some e => LogErrorAndExit env.log (some e) "" []
  | none =>
    andThen
      ([Emit.describef "Component Name: " currentComponentName,
        Emit.describef "Type: " componentDesc.Spec.componentType]
        ++ (if componentDesc.Spec.Source ≠ "" then
              [Emit.describef "Source: " componentDesc.Spec.Source] else []),
        Ending.returned)
      (andThen (envSection componentDesc.Spec)
        (andThen (storageSection env componentDesc.Spec)
          (andThen (urlSection env currentComponentName applicationName componentDesc.Spec)
            (andThen (linkedComponentsSection componentDesc.Status)
              (linkedServicesSection componentDesc.Status)))))

/-- A sample environment for `PrintComponentInfo`: prose output, a local
configuration that loads and lists no storage, and no pushed URL. -/
def samplePrintEnv : PrintEnv where
  log := proseEnv
  configNew := none
  storageList := Except.ok []
  listPushed := fun _ _ => Except.ok (fun _ => ⟨"http", "nodejs-app.example.com", 8080⟩)
  getURLString := fun protocol host => protocol ++ "://" ++ host

/-- A component description with nothing to list. -/
def bareComponent : Component :=
  ⟨⟨"nodejs", "", none, [], none⟩, ⟨[], []⟩⟩

/-- A component whose `Spec.Env` is a non-nil slice without entries. -/
def emptyEnvComponent : Component :=
  ⟨⟨"nodejs", "", some [], [], none⟩, ⟨[], []⟩⟩

/-- A component with one storage in its `Spec.Storage`. -/
def storageComponent : Component :=
  ⟨⟨"nodejs", "", none, ["data"], none⟩, ⟨[], []⟩⟩

/-- A component whose `Spec.URL` is a non-nil slice without entries. -/
def emptyURLComponent : Component :=
  ⟨⟨"nodejs", "", none, [], some []⟩, ⟨[], []⟩⟩

/-- A component with every section filled. -/
def fullComponent : Component :=
  ⟨⟨"nodejs", "file://./", some [⟨"PORT", "8080"⟩], [], some ["nodejs-app"]⟩,
    ⟨[("backend", ["8080", "8443"]), ("cache", [])], ["mysql"]⟩⟩

end Util

/-! Local configuration (pkg/odo/cli/utils/utils.go). -/

namespace CliUtils

/-- Modelled from the spec: the source-type constants of the `config` package,
which is outside the source files at hand; the data model lists the source kinds
git, local, binary and none. -/
inductive SrcType where
  | GIT
  | LOCAL
  | BINARY
  | NONE
  deriving DecidableEq, Repr

/-- The three getters of `config.LocalConfigInfo` that `correctSourcePath` reads:
`GetName()`, `GetSourceType()` and `GetSourceLocation()`. -/
structure LocalConfig where
  GetName : String
  GetSourceType : SrcType
  GetSourceLocation : String
  deriving DecidableEq, Repr

/-- A parsed `url.URL`, with the fields of the standard library that matter for
a file location. -/
structure URL where
  Scheme : String
  Host : String
  Path : String
  deriving DecidableEq, Repr

/-- What `correctSourcePath` reads from outside: `url.Parse`, `util.ReadFilePath`
and `runtime.GOOS`. -/
structure PathEnv where
  urlParse : String → Create.Res URL
  readFilePath : URL → String → String
  GOOS : String

/-- Lines 72-90: `correctSourcePath`.  `errors.Wrapf(err, msg)` reads `msg: err`. -/
def correctSourcePath (env : PathEnv) (localConfig : LocalConfig) : Create.Res String :=
  let cmpName := localConfig.GetName
  let sourceType := localConfig.GetSourceType
  let sourcePath := localConfig.GetSourceLocation
  if sourceType = SrcType.BINARY ∨ sourceType = SrcType.LOCAL then
    match env.urlParse sourcePath with
    | Create.Res.err e =>
      Create.Res.err ("unable to parse source " ++ sourcePath ++ " from component "
        ++ cmpName ++ ": " ++ e)
    | Create.Res.ok u =>
      if u.Scheme ≠ "" ∧ u.Scheme ≠ "file" then
        Create.Res.err ("Component " ++ cmpName ++ " has invalid source path " ++ u.Scheme)
      else Create.Res.ok (env.readFilePath u env.GOOS)
  else Create.Res.ok sourcePath

/-- The struct `LocalConfigInfo` of lines 47-50. -/
structure LocalConfigInfo where
  LocalConfig : LocalConfig
  SourcePath : String
  deriving DecidableEq, Repr

/-- Lines 53-68: `RetrieveLocalConfigInfo`, given the answer of
`config.NewLocalConfigInfo(componentContext)`. -/
def RetrieveLocalConfigInfo (env : PathEnv)
    (newLocalConfigInfo : String → Create.Res LocalConfig) (componentContext : String) :
    Create.Res LocalConfigInfo :=
  match newLocalConfigInfo componentContext with
  | Create.Res.err e => Create.Res.err ("failed to fetch component config: " ++ e)
  | Create.Res.ok conf =>
    match correctSourcePath env conf with
    | Create.Res.err e => Create.Res.err ("unable to validate source path: " ++ e)
    | Create.Res.ok sourcePath => Create.Res.ok ⟨conf, sourcePath⟩

/-- A sample `url.Parse` and `util.ReadFilePath`: two locations with a scheme, one
location that does not parse, anything else a bare path; the file path of a URL
is its path. -/
def samplePathEnv : PathEnv where
  urlParse := fun s =>
    if s = ":frontend" then Create.Res.err "missing protocol scheme"
    else if s = "file:///home/u/app" then Create.Res.ok ⟨"file", "", "/home/u/app"⟩
    else if s = "https://github.com/openshift/nodejs-ex" then
      Create.Res.ok ⟨"https", "github.com", "/openshift/nodejs-ex"⟩
    else Create.Res.ok ⟨"", "", s⟩
  readFilePath := fun u _ => u.Path
  GOOS := "linux"

end CliUtils

namespace Create

/-! ## Shared lemmas -/

theorem length_ne_zero_iff (s : String) : s.length ≠ 0 ↔ s ≠ "" := by
  cases s with
  | mk l => cases l <;> simp [String.length, String.ext_iff]

theorem checkFlag_le_one_iff (f : Flags) :
    checkFlag f ≤ 1 ↔
      (f.componentBinary = "" ∧ f.componentGit = "") ∨
      (f.componentBinary = "" ∧ f.componentLocal = "") ∨
      (f.componentGit = "" ∧ f.componentLocal = "") := by
  unfold checkFlag
  simp only [length_ne_zero_iff]
  by_cases hb : f.componentBinary = "" <;> by_cases hg : f.componentGit = "" <;>
    by_cases hl : f.componentLocal = "" <;> simp [hb, hg, hl]

/-- When every check of lines 52-96 passes, `Run` reaches the dispatch with the
five check calls made. -/
theorem Run_of_passesChecks (env : Env) (args : List String) (f : Flags) (app : String)
    (h : PassesChecks env args f app) :
    Run env args f = provision env (checkCalls env args app) f (componentNameOf args)
      (args.getD 0 "") app env.projectGetCurrent := by
  obtain ⟨hr, hf, ha, ht, hv, hx⟩ := h
  cases args with
  | nil => simp [RangeArgs] at hr
  | cons ty rest =>
    simp only [List.getD_cons_zero] at ht ⊢
    have hf2 : ¬ checkFlag f > 1 := by omega
    simp [Run, ha, hf2, ht, hv, hx, checkCalls]

/-! ## Source flags (lines 52-72) -/

/-- C1, as stated, fails: with `--binary` and `--git` both given the run does end
with the conflicting-source error, but only after the current application and
project have been looked up on the cluster; and when that lookup fails the run
ends with the lookup error, not with the conflicting-source error. -/
theorem conflicting_source_after_lookup :
    2 ≤ checkFlag conflictingFlags ∧
    Run sampleEnv ["nodejs"] conflictingFlags =
      ([Call.GetCurrentOrGetCreateSetDefault, Call.ProjectGetCurrent],
        Outcome.exited 1 Failure.conflictingSource) ∧
    (Run sampleEnv ["nodejs"] conflictingFlags).1.filter Call.isCluster ≠ [] ∧
    Run loggedOutEnv ["nodejs"] conflictingFlags =
      ([Call.GetCurrentOrGetCreateSetDefault],
        Outcome.exited 1
          (Failure.checkError Call.GetCurrentOrGetCreateSetDefault "not logged in")) := by
  decide

/-- C1, amended: with two or more source flags non-empty the run ends with exit
status 1 and makes no call other than the lookups of the current application and
project; when the application lookup succeeds, both lookups are made and the
failure is the conflicting-source error. -/
theorem conflicting_source_exit (env : Env) (args : List String) (f : Flags)
    (h : 2 ≤ checkFlag f) :
    exitStatus (Run env args f).2 = 1 ∧
    (∀ c ∈ (Run env args f).1,
      c = Call.GetCurrentOrGetCreateSetDefault ∨ c = Call.ProjectGetCurrent) ∧
    (∀ app, env.getCurrentOrGetCreateSetDefault = Res.ok app →
      Run env args f = ([Call.GetCurrentOrGetCreateSetDefault, Call.ProjectGetCurrent],
        Outcome.exited 1 Failure.conflictingSource)) := by
  have h2 : checkFlag f > 1 := h
  cases ha : env.getCurrentOrGetCreateSetDefault with
  | ok app => simp [Run, ha, h2, exitStatus]
  | err e => simp [Run, ha, exitStatus, checkErrorExit]

/-- C1, amended, at the sample environment with `--binary` and `--git` both given. -/
theorem conflicting_source_exit_witness :
    exitStatus (Run sampleEnv ["nodejs"] conflictingFlags).2 = 1 ∧
    (∀ c ∈ (Run sampleEnv ["nodejs"] conflictingFlags).1,
      c = Call.GetCurrentOrGetCreateSetDefault ∨ c = Call.ProjectGetCurrent) ∧
    (∀ app, sampleEnv.getCurrentOrGetCreateSetDefault = Res.ok app →
      Run sampleEnv ["nodejs"] conflictingFlags =
        ([Call.GetCurrentOrGetCreateSetDefault, Call.ProjectGetCurrent],
          Outcome.exited 1 Failure.conflictingSource)) :=
  conflicting_source_exit sampleEnv ["nodejs"] conflictingFlags (by decide)

/-! ## Build parameters (lines 104, 120, 130, 140) -/

/-- C2, as stated, fails: for a git source the build is called with its first
boolean (`wait`) true, not false, and for the default local source with `wait`
false, not true. -/
theorem build_wait_is_true_for_git :
    sourceKind gitFlags = SourceKind.git ∧
    Run sampleEnv ["nodejs"] gitFlags =
      ([Call.GetCurrentOrGetCreateSetDefault, Call.ProjectGetCurrent,
        Call.CatalogExists "nodejs", Call.ValidateName "nodejs",
        Call.ComponentExists "nodejs" "app" "myproject",
        Call.CreateFromGit "nodejs" "nodejs" "https://github.com/openshift/nodejs-ex.git" "app",
        Call.Build "nodejs" true true,
        Call.SetCurrent "nodejs" "app" "myproject"], Outcome.returned) ∧
    Call.Build "nodejs" (decide (sourceKind gitFlags ≠ SourceKind.git)) true
      ∉ (Run sampleEnv ["nodejs"] gitFlags).1 ∧
    sourceKind noFlags = SourceKind.currentDir ∧
    (Run sampleEnv ["nodejs"] noFlags).2 = Outcome.returned ∧
    Call.Build "nodejs" (decide (sourceKind noFlags ≠ SourceKind.git)) true
      ∉ (Run sampleEnv ["nodejs"] noFlags).1 := by
  decide

/-- C2, amended: every build call of a run has `wait = (sourceKind == git)` and
`showProgress = true`, that is `wait` is true for a git source and false for
local, binary and default-local sources; and a run that returns made exactly one
build call, for the resolved component name. -/
theorem build_parameters (env : Env) (args : List String) (f : Flags) :
    (∀ n w s, Call.Build n w s ∈ (Run env args f).1 →
      w = decide (sourceKind f = SourceKind.git) ∧ s = true) ∧
    ((Run env args f).2 = Outcome.returned →
      (Run env args f).1.filter Call.isBuild =
        [Call.Build (componentNameOf args) (decide (sourceKind f = SourceKind.git)) true]) := by
  simp only [Run, provision, createFromPathStep, buildStep, setCurrentStep, checkErrorExit]
  refine ⟨?_, ?_⟩
  · intro n w s
    repeat' split
    all_goals simp_all [sourceKind]
  · repeat' split
    all_goals simp_all [Call.isBuild, sourceKind]

/-! ## Type and name checks (lines 76-96) -/

/-- C3, as stated, fails: the catalog is queried before the name is validated, so
for a type absent from the catalog an invalid name is never reported (the run
ends with the unknown-type error), and for a known type the catalog query is
already in the trace when the invalid-name error occurs. -/
theorem invalid_name_not_before_catalog :
    checkFlag noFlags ≤ 1 ∧
    sampleEnv.validateName (componentNameOf ["ruby", "Front_End"]) ≠ none ∧
    Run sampleEnv ["ruby", "Front_End"] noFlags =
      ([Call.GetCurrentOrGetCreateSetDefault, Call.ProjectGetCurrent,
        Call.CatalogExists "ruby"], Outcome.exited 1 (Failure.unknownType "ruby")) ∧
    Run sampleEnv ["nodejs", "Front_End"] noFlags =
      ([Call.GetCurrentOrGetCreateSetDefault, Call.ProjectGetCurrent,
        Call.CatalogExists "nodejs", Call.ValidateName "Front_End"],
        Outcome.exited 1 (Failure.checkError (Call.ValidateName "Front_End")
          "name must be lower case alphanumeric")) := by
  decide

/-- C3, amended: with one or two arguments, at most one source flag, a successful
application lookup and a component type present in the catalog, a resolved name
that violates the naming rules makes the run fail with the invalid-name error
(exit status 1) at the name-validation step, which comes after the catalog query
and before the existence query: the calls made are exactly the two lookups, the
catalog query and the validation. -/
theorem invalid_name_after_catalog (env : Env) (args : List String) (f : Flags)
    (app msg : String)
    (hr : RangeArgs 1 2 args = true) (hf : checkFlag f ≤ 1)
    (ha : env.getCurrentOrGetCreateSetDefault = Res.ok app)
    (ht : env.catalogExists (args.getD 0 "") = Res.ok true)
    (hv : env.validateName (componentNameOf args) = some msg) :
    Run env args f =
      ([Call.GetCurrentOrGetCreateSetDefault, Call.ProjectGetCurrent,
        Call.CatalogExists (args.getD 0 ""), Call.ValidateName (componentNameOf args)],
        Outcome.exited 1 (Failure.checkError (Call.ValidateName (componentNameOf args)) msg)) := by
  cases args with
  | nil => simp [RangeArgs] at hr
  | cons ty rest =>
    simp only [List.getD_cons_zero] at ht ⊢
    have hf2 : ¬ checkFlag f > 1 := by omega
    simp [Run, ha, hf2, ht, hv, checkErrorExit]

/-- C3, amended, at the sample environment for `create nodejs Front_End`. -/
theorem invalid_name_after_catalog_witness :
    Run sampleEnv ["nodejs", "Front_End"] noFlags =
      ([Call.GetCurrentOrGetCreateSetDefault, Call.ProjectGetCurrent,
        Call.CatalogExists "nodejs", Call.ValidateName "Front_End"],
        Outcome.exited 1 (Failure.checkError (Call.ValidateName "Front_End")
          "name must be lower case alphanumeric")) :=
  invalid_name_after_catalog sampleEnv ["nodejs", "Front_End"] noFlags "app"
    "name must be lower case alphanumeric" (by decide) (by decide) rfl rfl (by decide)

/-- C4, as stated, fails: when the lookup of the current application fails, a run
with no source flag and a type absent from the catalog ends with the lookup error
and never reaches the unknown-type error. -/
theorem unknown_type_needs_application :
    checkFlag noFlags ≤ 1 ∧
    loggedOutEnv.catalogExists "ruby" = Res.ok false ∧
    Run loggedOutEnv ["ruby"] noFlags =
      ([Call.GetCurrentOrGetCreateSetDefault],
        Outcome.exited 1
          (Failure.checkError Call.GetCurrentOrGetCreateSetDefault "not logged in")) ∧
    (Run loggedOutEnv ["ruby"] noFlags).2 ≠ Outcome.exited 1 (Failure.unknownType "ruby") := by
  decide

/-- C4, amended: with one or two arguments, at most one source flag and a component
type absent from the catalog, the run ends with exit status 1 and makes no
creation, build or set-current call; when the application lookup succeeds the
failure is the unknown-type error, raised right after the catalog query. -/
theorem unknown_type_exit (env : Env) (args : List String) (f : Flags)
    (hr : RangeArgs 1 2 args = true) (hf : checkFlag f ≤ 1)
    (ht : env.catalogExists (args.getD 0 "") = Res.ok false) :
    exitStatus (Run env args f).2 = 1 ∧
    (Run env args f).1.filter Call.isEffect = [] ∧
    (∀ app, env.getCurrentOrGetCreateSetDefault = Res.ok app →
      Run env args f =
        ([Call.GetCurrentOrGetCreateSetDefault, Call.ProjectGetCurrent,
          Call.CatalogExists (args.getD 0 "")],
          Outcome.exited 1 (Failure.unknownType (args.getD 0 "")))) := by
  cases args with
  | nil => simp [RangeArgs] at hr
  | cons ty rest =>
    simp only [List.getD_cons_zero] at ht ⊢
    have hf2 : ¬ checkFlag f > 1 := by omega
    cases ha : env.getCurrentOrGetCreateSetDefault with
    | ok app => simp [Run, ha, hf2, ht, exitStatus, Call.isEffect, Call.isCreation,
        Call.isBuild, Call.isSetCurrent]
    | err e => simp [Run, ha, exitStatus, checkErrorExit, Call.isEffect, Call.isCreation,
        Call.isBuild, Call.isSetCurrent]

/-- C4, amended, at the sample environment for `create ruby --git ...`. -/
theorem unknown_type_exit_witness :
    exitStatus (Run sampleEnv ["ruby"] gitFlags).2 = 1 ∧
    (Run sampleEnv ["ruby"] gitFlags).1.filter Call.isEffect = [] ∧
    (∀ app, sampleEnv.getCurrentOrGetCreateSetDefault = Res.ok app →
      Run sampleEnv ["ruby"] gitFlags =
        ([Call.GetCurrentOrGetCreateSetDefault, Call.ProjectGetCurrent,
          Call.CatalogExists (["ruby"].getD 0 "")],
          Outcome.exited 1 (Failure.unknownType (["ruby"].getD 0 "")))) :=
  unknown_type_exit sampleEnv ["ruby"] gitFlags (by decide) (by decide) (by decide)

/-- C5: with one or two arguments, at most one source flag, a component type present
in the catalog and a valid name, if a component of that name already exists in the
current (application, project) scope then the run fails with the duplicate-name
error, exit status 1, and makes no creation, build or set-current call: the
existence query is the last call made. -/
theorem duplicate_name_exit (env : Env) (args : List String) (f : Flags) (app : String)
    (hr : RangeArgs 1 2 args = true) (hf : checkFlag f ≤ 1)
    (ha : env.getCurrentOrGetCreateSetDefault = Res.ok app)
    (ht : env.catalogExists (args.getD 0 "") = Res.ok true)
    (hv : env.validateName (componentNameOf args) = none)
    (hx : env.componentExists (componentNameOf args) app env.projectGetCurrent = Res.ok true) :
    Run env args f = (checkCalls env args app,
      Outcome.exited 1 (Failure.duplicateName (componentNameOf args))) ∧
    exitStatus (Run env args f).2 = 1 ∧
    (Run env args f).1.filter Call.isEffect = [] := by
  have hrun : Run env args f = (checkCalls env args app,
      Outcome.exited 1 (Failure.duplicateName (componentNameOf args))) := by
    cases args with
    | nil => simp [RangeArgs] at hr
    | cons ty rest =>
      simp only [List.getD_cons_zero] at ht ⊢
      have hf2 : ¬ checkFlag f > 1 := by omega
      simp [Run, ha, hf2, ht, hv, hx, checkCalls]
  rw [hrun]
  simp [exitStatus, checkCalls, Call.isEffect, Call.isCreation, Call.isBuild,
    Call.isSetCurrent]

/-- C5 at the environment in which `nodejs` already exists, for `create nodejs`. -/
theorem duplicate_name_exit_witness :
    Run existingEnv ["nodejs"] noFlags =
      ([Call.GetCurrentOrGetCreateSetDefault, Call.ProjectGetCurrent,
        Call.CatalogExists "nodejs", Call.ValidateName "nodejs",
        Call.ComponentExists "nodejs" "app" "myproject"],
        Outcome.exited 1 (Failure.duplicateName "nodejs")) ∧
    exitStatus (Run existingEnv ["nodejs"] noFlags).2 = 1 ∧
    (Run existingEnv ["nodejs"] noFlags).1.filter Call.isEffect = [] :=
  duplicate_name_exit existingEnv ["nodejs"] noFlags "app" (by decide) (by decide) rfl
    (by decide) (by decide) (by decide)

/-! ## Component name (lines 84-87) -/

/-- Every call of a run that takes a component name is given the resolved name. -/
theorem nameArg_of_mem_Run (env : Env) (args : List String) (f : Flags) :
    ∀ c ∈ (Run env args f).1, ∀ n, c.nameArg = some n → n = componentNameOf args := by
  simp only [Run, provision, createFromPathStep, buildStep, setCurrentStep, checkErrorExit]
  repeat' split
  all_goals simp [Call.nameArg]

/-- A run that returns has given the resolved name to exactly five calls. -/
theorem nameArgs_of_returned (env : Env) (args : List String) (f : Flags) :
    (Run env args f).2 = Outcome.returned →
      (Run env args f).1.filterMap Call.nameArg =
        List.replicate 5 (componentNameOf args) := by
  simp only [Run, provision, createFromPathStep, buildStep, setCurrentStep, checkErrorExit]
  repeat' split
  all_goals simp [Call.nameArg, List.replicate]

/-- C6: for an argument list of length 1 the component name given to every later
call (validation, existence query, creation, build, set-current) is the component
type, and for an argument list of length 2 it is the second argument; a run that
returns has made exactly these five calls with that name. -/
theorem component_name_resolution (env : Env) (f : Flags) (ty nm : String) :
    (∀ c ∈ (Run env [ty] f).1, ∀ n, c.nameArg = some n → n = ty) ∧
    (∀ c ∈ (Run env [ty, nm] f).1, ∀ n, c.nameArg = some n → n = nm) ∧
    ((Run env [ty] f).2 = Outcome.returned →
      (Run env [ty] f).1.filterMap Call.nameArg = [ty, ty, ty, ty, ty]) ∧
    ((Run env [ty, nm] f).2 = Outcome.returned →
      (Run env [ty, nm] f).1.filterMap Call.nameArg = [nm, nm, nm, nm, nm]) :=
  ⟨nameArg_of_mem_Run env [ty] f, nameArg_of_mem_Run env [ty, nm] f,
    nameArgs_of_returned env [ty] f, nameArgs_of_returned env [ty, nm] f⟩

/-! ## Provisioning paths (lines 100-147) -/

/-- With at most one source flag, a non-empty `--git` leaves the other two empty. -/
theorem others_empty_of_git (f : Flags) (hf : checkFlag f ≤ 1) (hg : f.componentGit ≠ "") :
    f.componentBinary = "" ∧ f.componentLocal = "" := by
  rcases (checkFlag_le_one_iff f).1 hf with h | h | h
  · exact absurd h.2 hg
  · exact h
  · exact absurd h.1 hg

/-- With at most one source flag, a non-empty `--local` leaves the other two empty. -/
theorem others_empty_of_local (f : Flags) (hf : checkFlag f ≤ 1)
    (hl : f.componentLocal ≠ "") : f.componentBinary = "" ∧ f.componentGit = "" := by
  rcases (checkFlag_le_one_iff f).1 hf with h | h | h
  · exact h
  · exact absurd h.2 hl
  · exact absurd h.2 hl

/-- With at most one source flag, a non-empty `--binary` leaves the other two empty. -/
theorem others_empty_of_binary (f : Flags) (hf : checkFlag f ≤ 1)
    (hb : f.componentBinary ≠ "") : f.componentGit = "" ∧ f.componentLocal = "" := by
  rcases (checkFlag_le_one_iff f).1 hf with h | h | h
  · exact absurd h.1 hb
  · exact absurd h.1 hb
  · exact h

/-- No source flag is set exactly when all three are empty. -/
theorem checkFlag_eq_zero_iff (f : Flags) :
    checkFlag f = 0 ↔ f.componentBinary = "" ∧ f.componentGit = "" ∧ f.componentLocal = "" := by
  unfold checkFlag
  simp only [length_ne_zero_iff]
  by_cases hb : f.componentBinary = "" <;> by_cases hg : f.componentGit = "" <;>
    by_cases hl : f.componentLocal = "" <;> simp [hb, hg, hl]

/-- C7: in a run that passes the checks of lines 52-96 and, for a path source, the
resolution of the path (and for `--local` the directory check), exactly one
creation call is made, selected by the source flag: `--git` gives `CreateFromGit`
with the URL as given and no filesystem call at all; `--local` gives
`CreateFromPath` with the absolute form of the path and kind `local`; `--binary`
gives `CreateFromPath` with the absolute form of the path and kind `binary`; no
flag gives `CreateFromPath` with the absolute form of `./` and kind `local`. -/
theorem creation_dispatch (env : Env) (args : List String) (f : Flags) (app : String)
    (h : PassesChecks env args f app) :
    (f.componentGit ≠ "" →
      (Run env args f).1.filter Call.isCreation =
        [Call.CreateFromGit (componentNameOf args) (args.getD 0 "") f.componentGit app] ∧
      (Run env args f).1.filter Call.isFilesystem = []) ∧
    (f.componentLocal ≠ "" → ∀ dir, env.filepathAbs f.componentLocal = Res.ok dir →
      env.osStat dir = Res.ok true →
      (Run env args f).1.filter Call.isCreation =
        [Call.CreateFromPath (componentNameOf args) (args.getD 0 "") dir app "local"]) ∧
    (f.componentBinary ≠ "" → ∀ path, env.filepathAbs f.componentBinary = Res.ok path →
      (Run env args f).1.filter Call.isCreation =
        [Call.CreateFromPath (componentNameOf args) (args.getD 0 "") path app "binary"]) ∧
    (checkFlag f = 0 → ∀ dir, env.filepathAbs "./" = Res.ok dir →
      (Run env args f).1.filter Call.isCreation =
        [Call.CreateFromPath (componentNameOf args) (args.getD 0 "") dir app "local"]) := by
  rw [Run_of_passesChecks env args f app h]
  have hf := h.oneSource
  refine ⟨?_, ?_, ?_, ?_⟩
  · intro hg
    have hg2 := (length_ne_zero_iff _).2 hg
    simp only [provision, buildStep, setCurrentStep, checkErrorExit, checkCalls, hg2]
    constructor
    · repeat' split
      all_goals simp [Call.isCreation]
    · repeat' split
      all_goals simp [Call.isFilesystem]
  · intro hl dir habs hstat
    obtain ⟨-, hg⟩ := others_empty_of_local f hf hl
    have hl2 := (length_ne_zero_iff _).2 hl
    simp only [provision, createFromPathStep, buildStep, setCurrentStep, checkErrorExit,
      checkCalls, hg, hl2, habs, hstat]
    repeat' split
    all_goals simp_all [Call.isCreation]
  · intro hb path habs
    obtain ⟨hg, hl⟩ := others_empty_of_binary f hf hb
    have hb2 := (length_ne_zero_iff _).2 hb
    simp only [provision, createFromPathStep, buildStep, setCurrentStep, checkErrorExit,
      checkCalls, hg, hl, hb2, habs]
    repeat' split
    all_goals simp_all [Call.isCreation]
  · intro h0 dir habs
    obtain ⟨hb, hg, hl⟩ := (checkFlag_eq_zero_iff f).1 h0
    simp only [provision, createFromPathStep, buildStep, setCurrentStep, checkErrorExit,
      checkCalls, hg, hl, hb, habs]
    repeat' split
    all_goals simp_all [Call.isCreation]

/-- C7 at the sample environment, once for each of the four source kinds. -/
theorem creation_dispatch_witness :
    ((Run sampleEnv ["nodejs"] gitFlags).1.filter Call.isCreation =
        [Call.CreateFromGit "nodejs" "nodejs" "https://github.com/openshift/nodejs-ex.git" "app"] ∧
      (Run sampleEnv ["nodejs"] gitFlags).1.filter Call.isFilesystem = []) ∧
    (Run sampleEnv ["nodejs", "backend"] localDirFlags).1.filter Call.isCreation =
      [Call.CreateFromPath "backend" "nodejs" "/home/u/app/backend" "app" "local"] ∧
    (Run sampleEnv ["nodejs", "wildly"] binaryFlags).1.filter Call.isCreation =
      [Call.CreateFromPath "wildly" "nodejs" "/home/u/app/downloads/sample.war" "app" "binary"] ∧
    (Run sampleEnv ["nodejs"] noFlags).1.filter Call.isCreation =
      [Call.CreateFromPath "nodejs" "nodejs" "/home/u/app" "app" "local"] :=
  ⟨(creation_dispatch sampleEnv ["nodejs"] gitFlags "app"
      ⟨by decide, by decide, rfl, by decide, by decide, by decide⟩).1 (by decide),
    (creation_dispatch sampleEnv ["nodejs", "backend"] localDirFlags "app"
      ⟨by decide, by decide, rfl, by decide, by decide, by decide⟩).2.1 (by decide)
      "/home/u/app/backend" (by decide) (by decide),
    (creation_dispatch sampleEnv ["nodejs", "wildly"] binaryFlags "app"
      ⟨by decide, by decide, rfl, by decide, by decide, by decide⟩).2.2.1 (by decide)
      "/home/u/app/downloads/sample.war" (by decide),
    (creation_dispatch sampleEnv ["nodejs"] noFlags "app"
      ⟨by decide, by decide, rfl, by decide, by decide, by decide⟩).2.2.2 (by decide)
      "/home/u/app" (by decide)⟩

/-- C8: with no source flag, when the checks of lines 52-96 pass, the current
directory resolves to `dir` and the creation, build and set-current calls all
succeed, the run makes the five check calls, resolves `./`, and then exactly the
gateway effects: create a `local` component from `dir`, build with `wait = false`
and `showProgress = true`, set the component active; it returns, so the process
ends with exit status 0. -/
theorem default_create_sequence (env : Env) (args : List String) (f : Flags)
    (app dir : String) (h : PassesChecks env args f app) (h0 : checkFlag f = 0)
    (habs : env.filepathAbs "./" = Res.ok dir)
    (hc : env.createFromPath (componentNameOf args) (args.getD 0 "") dir app "local" = none)
    (hb : env.build (componentNameOf args) false true = none)
    (hs : env.setCurrent (componentNameOf args) app env.projectGetCurrent = none) :
    Run env args f =
      (checkCalls env args app ++
        [Call.FilepathAbs "./",
          Call.CreateFromPath (componentNameOf args) (args.getD 0 "") dir app "local",
          Call.Build (componentNameOf args) false true,
          Call.SetCurrent (componentNameOf args) app env.projectGetCurrent],
        Outcome.returned) ∧
    (Run env args f).1.filter Call.isEffect =
      [Call.CreateFromPath (componentNameOf args) (args.getD 0 "") dir app "local",
        Call.Build (componentNameOf args) false true,
        Call.SetCurrent (componentNameOf args) app env.projectGetCurrent] ∧
    exitStatus (Run env args f).2 = 0 := by
  obtain ⟨hbin, hg, hl⟩ := (checkFlag_eq_zero_iff f).1 h0
  have hrun : Run env args f =
      (checkCalls env args app ++
        [Call.FilepathAbs "./",
          Call.CreateFromPath (componentNameOf args) (args.getD 0 "") dir app "local",
          Call.Build (componentNameOf args) false true,
          Call.SetCurrent (componentNameOf args) app env.projectGetCurrent],
        Outcome.returned) := by
    rw [Run_of_passesChecks env args f app h]
    simp [-List.getD_eq_getElem?_getD, provision, createFromPathStep, buildStep,
      setCurrentStep, hbin, hg, hl, habs, hc, hb, hs]
  rw [hrun]
  simp [exitStatus, checkCalls, Call.isEffect, Call.isCreation, Call.isBuild,
    Call.isSetCurrent]

/-- C8 at the sample environment: `create nodejs` run in `/home/u/app`. -/
theorem default_create_sequence_witness :
    Run sampleEnv ["nodejs"] noFlags =
      ([Call.GetCurrentOrGetCreateSetDefault, Call.ProjectGetCurrent,
        Call.CatalogExists "nodejs", Call.ValidateName "nodejs",
        Call.ComponentExists "nodejs" "app" "myproject", Call.FilepathAbs "./",
        Call.CreateFromPath "nodejs" "nodejs" "/home/u/app" "app" "local",
        Call.Build "nodejs" false true,
        Call.SetCurrent "nodejs" "app" "myproject"], Outcome.returned) ∧
    (Run sampleEnv ["nodejs"] noFlags).1.filter Call.isEffect =
      [Call.CreateFromPath "nodejs" "nodejs" "/home/u/app" "app" "local",
        Call.Build "nodejs" false true,
        Call.SetCurrent "nodejs" "app" "myproject"] ∧
    exitStatus (Run sampleEnv ["nodejs"] noFlags).2 = 0 :=
  default_create_sequence sampleEnv ["nodejs"] noFlags "app" "/home/u/app"
    ⟨by decide, by decide, rfl, by decide, by decide, by decide⟩ (by decide) (by decide)
    rfl rfl rfl

/-- C9: in a run that passes the checks of lines 52-96 with only `--local` set, if
the path resolves to `dir` and `dir` exists but is not a directory, the run fails
with the not-a-directory error right after the stat call, with exit status 1 and
no creation call.  With only `--binary` set no stat call is made at all: whatever
the path is, the run goes on to `CreateFromPath` with kind `binary` and never
ends with the not-a-directory error. -/
theorem local_source_must_be_directory (env : Env) (args : List String) (f : Flags)
    (app : String) (h : PassesChecks env args f app) :
    (f.componentLocal ≠ "" → ∀ dir, env.filepathAbs f.componentLocal = Res.ok dir →
      env.osStat dir = Res.ok false →
      Run env args f =
        (checkCalls env args app ++ [Call.FilepathAbs f.componentLocal, Call.OsStat dir],
          Outcome.exited 1 Failure.notADirectory) ∧
      exitStatus (Run env args f).2 = 1 ∧
      (Run env args f).1.filter Call.isCreation = []) ∧
    (f.componentBinary ≠ "" → ∀ path, env.filepathAbs f.componentBinary = Res.ok path →
      (∀ p, Call.OsStat p ∉ (Run env args f).1) ∧
      Call.CreateFromPath (componentNameOf args) (args.getD 0 "") path app "binary"
        ∈ (Run env args f).1 ∧
      (Run env args f).2 ≠ Outcome.exited 1 Failure.notADirectory) := by
  rw [Run_of_passesChecks env args f app h]
  have hf := h.oneSource
  refine ⟨?_, ?_⟩
  · intro hl dir habs hstat
    obtain ⟨-, hg⟩ := others_empty_of_local f hf hl
    have hl2 := (length_ne_zero_iff _).2 hl
    simp [provision, checkCalls, hg, hl2, habs, hstat, exitStatus, Call.isCreation]
  · intro hb path habs
    obtain ⟨hg, hl⟩ := others_empty_of_binary f hf hb
    have hb2 := (length_ne_zero_iff _).2 hb
    simp only [provision, createFromPathStep, buildStep, setCurrentStep, checkErrorExit,
      checkCalls, hg, hl, hb2, habs]
    repeat' split
    all_goals simp_all

/-- C9 at the sample environment: `create nodejs frontend --local ./frontend` where
`frontend` is a regular file, and `create nodejs wildly --binary ./downloads/sample.war`. -/
theorem local_source_must_be_directory_witness :
    (Run sampleEnv ["nodejs", "frontend"] localFlags =
        ([Call.GetCurrentOrGetCreateSetDefault, Call.ProjectGetCurrent,
          Call.CatalogExists "nodejs", Call.ValidateName "frontend",
          Call.ComponentExists "frontend" "app" "myproject",
          Call.FilepathAbs "./frontend", Call.OsStat "/home/u/app/frontend"],
          Outcome.exited 1 Failure.notADirectory) ∧
      exitStatus (Run sampleEnv ["nodejs", "frontend"] localFlags).2 = 1 ∧
      (Run sampleEnv ["nodejs", "frontend"] localFlags).1.filter Call.isCreation = []) ∧
    sampleEnv.osStat "/home/u/app/downloads/sample.war" = Res.ok false ∧
    ((∀ p, Call.OsStat p ∉ (Run sampleEnv ["nodejs", "wildly"] binaryFlags).1) ∧
      Call.CreateFromPath "wildly" "nodejs" "/home/u/app/downloads/sample.war" "app" "binary"
        ∈ (Run sampleEnv ["nodejs", "wildly"] binaryFlags).1 ∧
      (Run sampleEnv ["nodejs", "wildly"] binaryFlags).2
        ≠ Outcome.exited 1 Failure.notADirectory) :=
  ⟨(local_source_must_be_directory sampleEnv ["nodejs", "frontend"] localFlags "app"
      ⟨by decide, by decide, rfl, by decide, by decide, by decide⟩).1 (by decide)
      "/home/u/app/frontend" (by decide) (by decide),
    by decide,
    (local_source_must_be_directory sampleEnv ["nodejs", "wildly"] binaryFlags "app"
      ⟨by decide, by decide, rfl, by decide, by decide, by decide⟩).2 (by decide)
      "/home/u/app/downloads/sample.war" (by decide)⟩

/-! ## Order of the steps -/

/-- The positions of the calls of a run strictly increase. -/
theorem map_step_increasing (env : Env) (args : List String) (f : Flags) :
    ((Run env args f).1.map Call.step).Pairwise (fun a b => a < b) := by
  simp only [Run, provision, createFromPathStep, buildStep, setCurrentStep, checkErrorExit]
  repeat' split
  all_goals simp only [List.map_cons, List.map_nil, List.map_append, Call.step,
    List.cons_append, List.nil_append]
  all_goals decide

/-- The calls of a run follow the text of `Run`: their positions strictly increase. -/
theorem step_increasing (env : Env) (args : List String) (f : Flags) :
    (Run env args f).1.Pairwise (fun a b => a.step < b.step) :=
  List.pairwise_map.1 (map_step_increasing env args f)

set_option maxHeartbeats 1600000 in
/-- A set-current call is the last call of its run, is given the resolved name, the
application that was looked up and the current project, and comes with a
successful creation call and a successful build call in the same run. -/
theorem setCurrent_of_mem_Run (env : Env) (args : List String) (f : Flags) :
    ∀ n a p, Call.SetCurrent n a p ∈ (Run env args f).1 →
      n = componentNameOf args ∧ env.getCurrentOrGetCreateSetDefault = Res.ok a ∧
      p = env.projectGetCurrent ∧
      (Run env args f).1.getLast? = some (Call.SetCurrent n a p) ∧
      (Run env args f).1.any (fun c => c.isCreation && env.succeeds c) = true ∧
      (Run env args f).1.any (fun c => c.isBuild && env.succeeds c) = true := by
  intro n a p
  simp only [Run, provision, createFromPathStep, buildStep, setCurrentStep, checkErrorExit]
  repeat' split
  all_goals simp_all [Call.isCreation, Call.isBuild, Env.succeeds]

set_option maxHeartbeats 1600000 in
/-- A call that the environment answers with an error is the last call of its run,
and the run exits with status 1 on that error. -/
theorem failed_call_is_last (env : Env) (args : List String) (f : Flags) :
    ∀ c ∈ (Run env args f).1, env.succeeds c = false →
      (Run env args f).1.getLast? = some c ∧
      ∃ msg, (Run env args f).2 = Outcome.exited 1 (Failure.checkError c msg) := by
  simp only [Run, provision, createFromPathStep, buildStep, setCurrentStep, checkErrorExit]
  repeat' split
  all_goals simp_all [Env.succeeds]

set_option maxHeartbeats 1600000 in
/-- A run that exits does so with status 1, and no call was made past the
position of the failure. -/
theorem no_call_after_failure (env : Env) (args : List String) (f : Flags) :
    ∀ code why, (Run env args f).2 = Outcome.exited code why →
      code = 1 ∧ ∀ c ∈ (Run env args f).1, c.step ≤ why.step := by
  intro code why
  simp only [Run, provision, createFromPathStep, buildStep, setCurrentStep, checkErrorExit]
  repeat' split
  all_goals simp
  all_goals rintro rfl rfl
  all_goals simp [Call.step, Failure.step]

/-- A run makes at most one set-current call. -/
theorem setCurrent_at_most_once (env : Env) (args : List String) (f : Flags) :
    ((Run env args f).1.filter Call.isSetCurrent).length ≤ 1 := by
  simp only [Run, provision, createFromPathStep, buildStep, setCurrentStep, checkErrorExit]
  repeat' split
  all_goals simp [Call.isSetCurrent]

/-- A set-current call sits at the last position of the text of `Run`. -/
theorem step_of_isSetCurrent (c : Call) (h : c.isSetCurrent = true) : c.step = 10 := by
  cases c <;> simp_all [Call.isSetCurrent, Call.step]

/-- C10: in every run, set-current is called at most once; the calls follow the
order of the text of `Run` (creation, then build, then set-current); a set-current
call is the last call of the run, is given the resolved component name, the
current application and the current project, and occurs only in a run that holds
a successful creation call and a successful build call.  A call answered with an
error is the last call of its run, and a run that exits does so with status 1
without any call past the failing step, in particular without a set-current call
when the failure is earlier than set-current. -/
theorem set_current_only_after_success (env : Env) (args : List String) (f : Flags) :
    ((Run env args f).1.filter Call.isSetCurrent).length ≤ 1 ∧
    (Run env args f).1.Pairwise (fun a b => a.step < b.step) ∧
    (∀ n a p, Call.SetCurrent n a p ∈ (Run env args f).1 →
      n = componentNameOf args ∧ env.getCurrentOrGetCreateSetDefault = Res.ok a ∧
      p = env.projectGetCurrent ∧
      (Run env args f).1.getLast? = some (Call.SetCurrent n a p) ∧
      (Run env args f).1.any (fun c => c.isCreation && env.succeeds c) = true ∧
      (Run env args f).1.any (fun c => c.isBuild && env.succeeds c) = true) ∧
    (∀ c ∈ (Run env args f).1, env.succeeds c = false →
      (Run env args f).1.getLast? = some c ∧
      ∃ msg, (Run env args f).2 = Outcome.exited 1 (Failure.checkError c msg)) ∧
    (∀ code why, (Run env args f).2 = Outcome.exited code why →
      code = 1 ∧ (∀ c ∈ (Run env args f).1, c.step ≤ why.step) ∧
      (why.step < 10 → (Run env args f).1.filter Call.isSetCurrent = [])) := by
  refine ⟨setCurrent_at_most_once env args f, step_increasing env args f,
    setCurrent_of_mem_Run env args f, failed_call_is_last env args f, ?_⟩
  intro code why h
  obtain ⟨h1, h2⟩ := no_call_after_failure env args f code why h
  refine ⟨h1, h2, ?_⟩
  intro hlt
  rw [List.filter_eq_nil_iff]
  intro c hc hs
  have h3 := h2 c hc
  have h4 := step_of_isSetCurrent c hs
  omega

end Create

/-! ## Errors and exit status (pkg/odo/util/cmdutils.go, pkg/machineoutput/types.go) -/

namespace Util

open Machineoutput (Emit)

/-- C11: in machine-readable mode, for every non-nil error `LogErrorAndExit` makes
exactly one write, to the error stream (nothing goes to standard output and
neither `log.Error` nor `log.Errorf` is called); when `json.Marshal` answers with
the text of the object it is given, that write is this text followed by a line
break, and the object is `kind` "Error", `apiVersion` "odo.openshift.io/v1alpha1",
`message` the text of the error. -/
theorem logErrorAndExit_json (env : LogEnv) (e : GoError) (context : String)
    (a : List String) (hj : env.isJSON = true) :
    (LogErrorAndExit env (some e) context a).1.length = 1 ∧
    (∀ w ∈ (LogErrorAndExit env (some e) context a).1, ∃ text, w = Emit.stderr text) ∧
    (∀ printableOutput,
      env.jsonMarshal ⟨⟨"Error", "odo.openshift.io/v1alpha1"⟩, Machineoutput.ObjectMeta.zero,
        e.text⟩ = Create.Res.ok printableOutput →
      LogErrorAndExit env (some e) context a =
        ([Emit.stderr (printableOutput ++ "\n")], Ending.exited 1)) := by
  simp only [LogErrorAndExit, hj, if_true, Machineoutput.OutputError, Machineoutput.Kind,
    Machineoutput.APIVersion]
  refine ⟨?_, ?_, ?_⟩
  · split <;> simp
  · split <;> simp
  · intro printableOutput hm
    rw [hm]

/-- C11 at the sample environment in machine-readable mode. -/
theorem logErrorAndExit_json_witness :
    LogErrorAndExit jsonEnv (some sampleError) "" [] =
      ([Emit.stderr ("\x7b\"kind\":\"Error\",\"apiVersion\":\"odo.openshift.io/v1alpha1\","
        ++ "\"metadata\":\x7b\"creationTimestamp\":null\x7d,"
        ++ "\"message\":\"unable to list: connection refused\"\x7d" ++ "\n")],
        Ending.exited 1) :=
  (logErrorAndExit_json jsonEnv sampleError "" [] rfl).2.2 _ (by decide)

/-- C12: for every error value, context and output mode, `LogErrorAndExit` ends the
process with exit status 1 exactly when the error is non-nil; for a nil error it
writes nothing and returns; it never exits with another status and never
panics. -/
theorem logErrorAndExit_exit_status (env : LogEnv) (err : Option GoError)
    (context : String) (a : List String) :
    ((LogErrorAndExit env err context a).2 = Ending.exited 1 ↔ err ≠ none) ∧
    (err = none → LogErrorAndExit env err context a = ([], Ending.returned)) ∧
    (∀ code, (LogErrorAndExit env err context a).2 = Ending.exited code → code = 1) ∧
    (LogErrorAndExit env err context a).2 ≠ Ending.panicked := by
  cases err with
  | none => simp [LogErrorAndExit]
  | some e =>
    by_cases hj : env.isJSON = true
    · simp [LogErrorAndExit, hj]
    · by_cases hc : context = ""
      · simp [LogErrorAndExit, hj, hc]
      · simp [LogErrorAndExit, hj, hc]

/-- C13: `CheckOutputFlag` returns no error exactly for the strings `""` and
`"json"`; the comparison is exact, so other spellings are rejected. -/
theorem checkOutputFlag_accepts (outputFlag : String) :
    (CheckOutputFlag outputFlag = none ↔ outputFlag = "" ∨ outputFlag = "json") ∧
    CheckOutputFlag "JSON" ≠ none ∧ CheckOutputFlag " json" ≠ none ∧
    CheckOutputFlag "json " ≠ none ∧ CheckOutputFlag "yaml" ≠ none := by
  refine ⟨?_, by decide, by decide, by decide, by decide⟩
  unfold CheckOutputFlag
  split <;> simp_all

end Util

/-! ## Source path of the local configuration (pkg/odo/cli/utils/utils.go) -/

namespace CliUtils

/-- C14: `correctSourcePath` returns the stored source location unchanged, without
error, when the source type is neither BINARY nor LOCAL.  When it is BINARY or
LOCAL, the result is an error if the location does not parse as a URL, or parses
with a scheme that is non-empty and different from `file`; otherwise it is the
file path read from the parsed URL, without error. -/
theorem correctSourcePath_cases (env : PathEnv) (c : LocalConfig) :
    (c.GetSourceType ≠ SrcType.BINARY ∧ c.GetSourceType ≠ SrcType.LOCAL →
      correctSourcePath env c = Create.Res.ok c.GetSourceLocation) ∧
    (c.GetSourceType = SrcType.BINARY ∨ c.GetSourceType = SrcType.LOCAL →
      (∀ e, env.urlParse c.GetSourceLocation = Create.Res.err e →
        ∃ msg, correctSourcePath env c = Create.Res.err msg) ∧
      (∀ u, env.urlParse c.GetSourceLocation = Create.Res.ok u →
        u.Scheme ≠ "" ∧ u.Scheme ≠ "file" →
        ∃ msg, correctSourcePath env c = Create.Res.err msg) ∧
      (∀ u, env.urlParse c.GetSourceLocation = Create.Res.ok u →
        ¬ (u.Scheme ≠ "" ∧ u.Scheme ≠ "file") →
        correctSourcePath env c = Create.Res.ok (env.readFilePath u env.GOOS))) := by
  refine ⟨?_, ?_⟩
  · rintro ⟨hb, hl⟩
    simp [correctSourcePath, hb, hl]
  · intro ht
    refine ⟨?_, ?_, ?_⟩
    · intro e he
      simp [correctSourcePath, ht, he]
    · intro u hu hs
      simp [correctSourcePath, ht, hu, hs]
    · intro u hu hs
      simp only [correctSourcePath, ht, hu, if_true]
      rw [if_neg hs]

/-- C14 at the sample environment: a git location is returned as it is, a local
location that does not parse or has the scheme `https` is an error, a local
`file` location and a binary bare path give the path. -/
theorem correctSourcePath_cases_witness :
    correctSourcePath samplePathEnv
        ⟨"nodejs", SrcType.GIT, "https://github.com/openshift/nodejs-ex"⟩ =
      Create.Res.ok "https://github.com/openshift/nodejs-ex" ∧
    (∃ msg, correctSourcePath samplePathEnv ⟨"nodejs", SrcType.LOCAL, ":frontend"⟩ =
      Create.Res.err msg) ∧
    (∃ msg, correctSourcePath samplePathEnv
        ⟨"nodejs", SrcType.LOCAL, "https://github.com/openshift/nodejs-ex"⟩ =
      Create.Res.err msg) ∧
    correctSourcePath samplePathEnv ⟨"nodejs", SrcType.LOCAL, "file:///home/u/app"⟩ =
      Create.Res.ok "/home/u/app" ∧
    correctSourcePath samplePathEnv ⟨"wildfly", SrcType.BINARY, "./downloads/sample.war"⟩ =
      Create.Res.ok "./downloads/sample.war" :=
  ⟨(correctSourcePath_cases samplePathEnv
      ⟨"nodejs", SrcType.GIT, "https://github.com/openshift/nodejs-ex"⟩).1 (by decide),
    ((correctSourcePath_cases samplePathEnv ⟨"nodejs", SrcType.LOCAL, ":frontend"⟩).2
      (by decide)).1 "missing protocol scheme" (by decide),
    ((correctSourcePath_cases samplePathEnv
      ⟨"nodejs", SrcType.LOCAL, "https://github.com/openshift/nodejs-ex"⟩).2
      (by decide)).2.1 ⟨"https", "github.com", "/openshift/nodejs-ex"⟩ (by decide) (by decide),
    ((correctSourcePath_cases samplePathEnv ⟨"nodejs", SrcType.LOCAL, "file:///home/u/app"⟩).2
      (by decide)).2.2 ⟨"file", "", "/home/u/app"⟩ (by decide) (by decide),
    ((correctSourcePath_cases samplePathEnv
      ⟨"wildfly", SrcType.BINARY, "./downloads/sample.war"⟩).2
      (by decide)).2.2 ⟨"", "", "./downloads/sample.war"⟩ (by decide) (by decide)⟩

end CliUtils

/-! ## Printing a component (pkg/odo/util/cmdutils.go, lines 74-174) -/

namespace Util

open Machineoutput (Emit)

/-- A loop that leaves a non-empty string after every step leaves a non-empty
string after at least one step. -/
theorem foldl_length_pos {α : Type} (g : String → α → String)
    (hg : ∀ output x, 0 < (g output x).length) :
    ∀ (l : List α) (init : String), l ≠ [] → 0 < (l.foldl g init).length
  | [], _, h => absurd rfl h
  | [x], init, _ => hg init x
  | x :: y :: l, init, _ => foldl_length_pos g hg (y :: l) (g init x) (by simp)

/-- The slice is in range for a non-empty string. -/
theorem describeCut_of_length_pos (title output : String) (h : 0 < output.length) :
    (describeCut title output).2 = Ending.returned := by
  have h0 : ¬ output.length = 0 := by omega
  simp [describeCut, cutLast, h0]

/-- The sections guarded by `len(...) > 0` on the list they iterate over never
panic: linked components and linked services. -/
theorem linked_sections_in_range (status : ComponentStatus) :
    (linkedComponentsSection status).2 = Ending.returned ∧
    (linkedServicesSection status).2 = Ending.returned := by
  constructor
  · unfold linkedComponentsSection
    split
    · rename_i h
      apply describeCut_of_length_pos
      apply foldl_length_pos
      · intro output x
        have hn : "\n".length = 1 := rfl
        split <;> simp [String.length_append, hn]
      · intro h0
        simp [h0] at h
    · rfl
  · unfold linkedServicesSection
    split
    · rename_i h
      apply describeCut_of_length_pos
      apply foldl_length_pos
      · intro output x
        have hn : "\n".length = 1 := rfl
        simp [String.length_append, hn]
      · intro h0
        simp [h0] at h
    · rfl

/-- The environment section panics exactly for a non-nil slice without entries. -/
theorem envSection_panics_iff (spec : ComponentSpec) :
    (envSection spec).2 = Ending.panicked ↔ spec.Env = some [] := by
  unfold envSection
  cases hE : spec.Env with
  | none => simp
  | some envs =>
    cases envs with
    | nil => simp [describeCut, cutLast]
    | cons x xs =>
      have h := describeCut_of_length_pos "Environment Variables:\n"
        ((x :: xs).foldl (fun output env =>
          output ++ (" · " ++ env.Name ++ "=" ++ env.Value ++ "\n")) "")
        (foldl_length_pos _
          (by
            intro output x
            have hn : "\n".length = 1 := rfl
            simp [String.length_append, hn]) _ _ (by simp))
      constructor
      · intro hp
        rw [h] at hp
        cases hp
      · intro he
        simp at he

/-- C15 fails on the code: with `Spec.Env` a non-nil slice without entries, with
`Spec.Storage` non-empty while the local configuration lists no storage, and
with `Spec.URL` a non-nil slice without entries, `PrintComponentInfo` applies
`output[:len(output)-1]` to the empty string and panics after the first two
lines of output. -/
theorem printComponentInfo_slice_out_of_range :
    emptyEnvComponent.Spec.Env = some [] ∧
    PrintComponentInfo samplePrintEnv "nodejs" emptyEnvComponent "app" =
      ([Emit.describef "Component Name: " "nodejs", Emit.describef "Type: " "nodejs"],
        Ending.panicked) ∧
    storageComponent.Spec.Storage = ["data"] ∧ samplePrintEnv.storageList = Except.ok [] ∧
    PrintComponentInfo samplePrintEnv "nodejs" storageComponent "app" =
      ([Emit.describef "Component Name: " "nodejs", Emit.describef "Type: " "nodejs"],
        Ending.panicked) ∧
    emptyURLComponent.Spec.URL = some [] ∧
    PrintComponentInfo samplePrintEnv "nodejs" emptyURLComponent "app" =
      ([Emit.describef "Component Name: " "nodejs", Emit.describef "Type: " "nodejs"],
        Ending.panicked) ∧
    cutLast "" = none := by
  refine ⟨rfl, by decide, rfl, rfl, by decide, rfl, by decide, by decide⟩

end Util
